import Mathlib

/-!
Verification of `scripts/setup-ankiweb-credentials.py` (anki-sprite).

The script pre-populates Anki's `prefs21.db` SQLite store with a `_global`
profile record and a user profile record (both pickled Python dicts), and
optionally fetches an AnkiWeb sync token (`hkey`) over HTTPS.

Shallow embedding:
* a pickled profile dict is an association list `Profile` from string keys to
  `Value`s (the value shapes this tool reads or writes are `None`, booleans,
  integers, strings, and lists of strings);
* the `profiles` table (`name text primary key collate nocase, data blob`) is
  an association list `Store` whose key comparison folds ASCII case, mirroring
  SQLite's NOCASE collation; `INSERT OR REPLACE` removes any row with a
  NOCASE-equal name and inserts the new row;
* the sqlite3 connection is a `DB` carrying the committed store and the
  pending (uncommitted) store: `execute` of an upsert changes only the pending
  side, `commit` publishes it, and an exception before `commit` leaves the
  committed store untouched (Python's sqlite3 rolls an uncommitted
  transaction back when the connection is discarded);
* the single HTTP exchange of `get_hkey_from_ankiweb` is abstracted by an
  `HttpResp` argument: a 2xx response with its decoded JSON object body, an
  `HTTPError` with its status code, or a `URLError` with its reason (the
  zstd / plain transport negotiation only affects the wire encoding, not the
  decoded body this function inspects);
* `time.time()` and `random.randint(...)`, read once at module load to build
  the two default dicts, are explicit parameters `created`, `rid`, `lastOpt`;
* Python exceptions become `Except FetchError`; `main`'s stderr line and exit
  code are returned explicitly.
-/

/-- Values stored in a profile dict: Python `None`, booleans, integers,
strings, and lists of strings (the only list this tool writes is the empty
`searchHistory`). -/
inductive Value where
  | vNone : Value
  | vBool : Bool → Value
  | vInt : Int → Value
  | vStr : String → Value
  | vList : List String → Value
deriving DecidableEq

/-- A profile record: a Python dict as an insertion-ordered association list. -/
abbrev Profile := List (String × Value)

/-- Python dict lookup `p[k]` / `k in p`: the value at the first (unique)
binding of `k`, compared exactly (Python dict keys are case-sensitive). -/
def getField : Profile → String → Option Value
  | [], _ => none
  | (k', v') :: rest, k => if k' = k then some v' else getField rest k

/-- Python dict assignment `p[k] = v`: replace the value in place if the key
exists, otherwise append the new binding at the end (insertion order). -/
def setField : Profile → String → Value → Profile
  | [], k, v => [(k, v)]
  | (k', v') :: rest, k, v =>
      if k' = k then (k, v) :: rest else (k', v') :: setField rest k v

/-- The `profiles` table: rows `(name, data)` with `name` the NOCASE primary
key and `data` the pickled profile dict. -/
abbrev Store := List (String × Profile)

/-- ASCII case folding, as performed by SQLite's built-in NOCASE collation
(only the 26 upper-case ASCII letters are folded). -/
def asciiLowerChar (c : Char) : Char :=
  if 'A' ≤ c ∧ c ≤ 'Z' then Char.ofNat (c.toNat + 32) else c

/-- Fold a whole name for NOCASE comparison. -/
def nameKey (s : String) : String := String.mk (s.data.map asciiLowerChar)

/-- The query `SELECT data FROM profiles WHERE name = ?` under NOCASE. -/
def lookupStore (s : Store) (n : String) : Option Profile :=
  match s with
  | [] => none
  | (n', p) :: rest => if nameKey n' = nameKey n then some p else lookupStore rest n

/-- The statement `INSERT OR REPLACE INTO profiles (name, data) VALUES (?, ?)`:
any row whose name is NOCASE-equal to the new name is removed and the new row
is inserted. -/
def upsertStore (s : Store) (n : String) (p : Profile) : Store :=
  s.filter (fun e => !(decide (nameKey e.1 = nameKey n))) ++ [(n, p)]

/-- A sqlite3 connection: the store as last committed, and the pending state
of the implicit transaction. -/
structure DB where
  committed : Store
  pending : Store
deriving DecidableEq

/-- Restated from `sqlite3.connect`: opening the database (creating an empty
one if the file is absent is modelled by connecting to the empty store). -/
def DB.connect (s : Store) : DB := ⟨s, s⟩

/-- Executing an `INSERT OR REPLACE` on the connection: only the pending
state changes. -/
def DB.upsert (d : DB) (n : String) (p : Profile) : DB :=
  ⟨d.committed, upsertStore d.pending n p⟩

/-- The statement `conn.commit()`: the pending state becomes committed. -/
def DB.commit (d : DB) : DB := ⟨d.pending, d.pending⟩

/-- Constant `PROFILE_NAME = "User 1"`. -/
def PROFILE_NAME : String := "User 1"

/-- `DEFAULT_GLOBAL_PROFILE`, with `int(time.time())` and
`random.randint(1000000000000000000, 9999999999999999999)` as parameters. -/
def DEFAULT_GLOBAL_PROFILE (created rid : Int) : Profile :=
  [ ("created", Value.vInt created),
    ("defaultLang", Value.vStr "en_US"),
    ("firstRun", Value.vBool false),
    ("id", Value.vInt rid),
    ("lastMsg", Value.vInt 0),
    ("last_loaded_profile_name", Value.vStr PROFILE_NAME),
    ("last_run_version", Value.vInt 250204),
    ("suppressUpdate", Value.vBool false),
    ("updates", Value.vBool true),
    ("ver", Value.vInt 0) ]

/-- `DEFAULT_USER_PROFILE`, with `int(time.time())` as a parameter. -/
def DEFAULT_USER_PROFILE (lastOpt : Int) : Profile :=
  [ ("mainWindowGeom", Value.vNone),
    ("mainWindowState", Value.vNone),
    ("numBackups", Value.vInt 50),
    ("lastOptimize", Value.vInt lastOpt),
    ("searchHistory", Value.vList []),
    ("syncKey", Value.vNone),
    ("syncMedia", Value.vBool true),
    ("autoSync", Value.vBool true),
    ("allowHTML", Value.vBool false),
    ("importMode", Value.vInt 1),
    ("lastColour", Value.vStr "#00f"),
    ("stripHTML", Value.vBool true),
    ("deleteMedia", Value.vBool false) ]

/-- Outcome of the one `urllib.request.urlopen` call in
`get_hkey_from_ankiweb`, after transport decoding: a 2xx response with its
decoded JSON object body, an `urllib.error.HTTPError` with its status code,
or an `urllib.error.URLError` with its reason string. -/
inductive HttpResp where
  | success : Profile → HttpResp
  | httpError : Nat → HttpResp
  | urlError : String → HttpResp
deriving DecidableEq

/-- The `ValueError`s raised by `get_hkey_from_ankiweb`, one constructor per
`raise` site, carrying the data that the Python message interpolates. -/
inductive FetchError where
  | invalidCredentials : FetchError
  | requestFailed : Nat → FetchError
  | connectFailed : String → FetchError
  | unexpectedResponse : Profile → FetchError
deriving DecidableEq

/-- Render a `Value` roughly as Python `repr` would inside an f-string. -/
def Value.pyRepr : Value → String
  | Value.vNone => "None"
  | Value.vBool true => "True"
  | Value.vBool false => "False"
  | Value.vInt n => toString n
  | Value.vStr s => "\x27" ++ s ++ "\x27"
  | Value.vList l => "[" ++ String.intercalate ", " (l.map (fun s => "\x27" ++ s ++ "\x27")) ++ "]"

/-- Render a decoded JSON object roughly as Python `repr` of a dict. -/
def pyReprDict (p : Profile) : String :=
  "\x7b" ++ String.intercalate ", " (p.map (fun e => "\x27" ++ e.1 ++ "\x27: " ++ e.2.pyRepr)) ++ "\x7d"

/-- The `str(e)` message of each `ValueError`, as built at the `raise` site. -/
def FetchError.message : FetchError → String
  | FetchError.invalidCredentials => "Invalid AnkiWeb username or password"
  | FetchError.requestFailed code => "AnkiWeb request failed with status " ++ toString code
  | FetchError.connectFailed reason => "Failed to connect to AnkiWeb: " ++ reason
  | FetchError.unexpectedResponse body => "Unexpected response from AnkiWeb: " ++ pyReprDict body

/-- `get_hkey_from_ankiweb(username, password)`: with the HTTP exchange
abstracted by `resp`, returns `result["key"]` from the decoded JSON body, or
raises: 401/403 → invalid credentials; any other `HTTPError` status → request
failed with that status; `URLError` → failed to connect; a body without the
`"key"` field → unexpected response. The credentials only feed the request
and do not influence the local control flow. -/
def get_hkey_from_ankiweb (_username _password : String) (resp : HttpResp) :
    Except FetchError Value :=
  match resp with
  | HttpResp.success body =>
      match getField body "key" with
      | some v => Except.ok v
      | none => Except.error (FetchError.unexpectedResponse body)
  | HttpResp.httpError code =>
      if code = 401 ∨ code = 403 then Except.error FetchError.invalidCredentials
      else Except.error (FetchError.requestFailed code)
  | HttpResp.urlError reason => Except.error (FetchError.connectFailed reason)

/-- Python truthiness of the optional string arguments of `setup_profile`:
`None` and the empty string are falsy. -/
def truthy : Option String → Bool
  | none => false
  | some s => !(decide (s = ""))

/-- `setup_profile(username, password)` on an initial committed store `db`:
connect, load or default the `_global` record, force its three critical
fields, upsert it (pending); load or default the user record; if both
credentials are truthy, fetch the hkey — a raise propagates with the
transaction never committed — and set the four sync fields; upsert the user
record and commit. Returns the final connection state and the Python return
value `True`, or the propagated error. -/
def setup_profile (db : Store) (username password : Option String)
    (resp : HttpResp) (created rid lastOpt : Int) : DB × Except FetchError Bool :=
  let conn := DB.connect db
  let global_profile :=
    match lookupStore conn.pending "_global" with
    | some p => p
    | none => DEFAULT_GLOBAL_PROFILE created rid
  let global_profile := setField global_profile "firstRun" (Value.vBool false)
  let global_profile := setField global_profile "defaultLang" (Value.vStr "en_US")
  let global_profile := setField global_profile "last_loaded_profile_name" (Value.vStr PROFILE_NAME)
  let conn := conn.upsert "_global" global_profile
  let user_profile :=
    match lookupStore conn.pending PROFILE_NAME with
    | some p => p
    | none => DEFAULT_USER_PROFILE lastOpt
  if truthy username && truthy password then
    match get_hkey_from_ankiweb (username.getD "") (password.getD "") resp with
    | Except.error e => (conn, Except.error e)
    | Except.ok hkey =>
        let user_profile := setField user_profile "syncKey" hkey
        let user_profile := setField user_profile "syncUser" (Value.vStr (username.getD ""))
        let user_profile := setField user_profile "autoSync" (Value.vBool true)
        let user_profile := setField user_profile "syncMedia" (Value.vBool true)
        let conn := conn.upsert PROFILE_NAME user_profile
        (conn.commit, Except.ok true)
  else
    ((conn.upsert PROFILE_NAME user_profile).commit, Except.ok true)

/-- Whitespace characters stripped by Python's `str.strip()` (the ASCII
whitespace set; the tool's inputs are ASCII env vars). -/
def isPySpace (c : Char) : Bool :=
  c = ' ' || c = '\t' || c = '\n' || c = '\r' || c = '\x0b' || c = '\x0c'

/-- Python `s.strip()`: drop whitespace from both ends. -/
def pyStrip (s : String) : String :=
  String.mk (((s.data.dropWhile isPySpace).reverse.dropWhile isPySpace).reverse)

/-- `main()`: read the two env vars (absent → `""`), strip them, and if
either is empty treat both as `None`; run `setup_profile`, and on an
exception print the error to stderr and exit 1. Returns the final committed
store, the exit code, and the stderr lines. -/
def main_run (envUser envPass : Option String) (db : Store) (resp : HttpResp)
    (created rid lastOpt : Int) : Store × Nat × List String :=
  let username := pyStrip (envUser.getD "")
  let password := pyStrip (envPass.getD "")
  let args : Option String × Option String :=
    if username = "" ∨ password = "" then (none, none)
    else (some username, some password)
  match setup_profile db args.1 args.2 resp created rid lastOpt with
  | (conn, Except.ok _) => (conn.committed, 0, [])
  | (conn, Except.error e) =>
      (conn.committed, 1, ["Error setting up Anki profile: " ++ e.message])

/-! ### Lemmas about profile fields -/

theorem getField_setField_self (p : Profile) (k : String) (v : Value) :
    getField (setField p k v) k = some v := by
  induction p with
  | nil => simp [setField, getField]
  | cons e rest ih =>
      obtain ⟨k', v'⟩ := e
      by_cases h : k' = k
      · simp [setField, h, getField]
      · simp [setField, h, getField, ih]

theorem getField_setField_ne (p : Profile) (k k' : String) (v : Value)
    (h : k' ≠ k) : getField (setField p k v) k' = getField p k' := by
  induction p with
  | nil => simp [setField, getField, Ne.symm h]
  | cons e rest ih =>
      obtain ⟨k'', v''⟩ := e
      by_cases hk : k'' = k
      · subst hk
        simp [setField, getField, Ne.symm h]
      · by_cases hk' : k'' = k'
        · simp [setField, getField, hk, hk', h]
        · simp [setField, getField, hk, hk', ih]

theorem setField_of_getField_eq (p : Profile) (k : String) (v : Value)
    (h : getField p k = some v) : setField p k v = p := by
  induction p with
  | nil => simp [getField] at h
  | cons e rest ih =>
      obtain ⟨k', v'⟩ := e
      by_cases hk : k' = k
      · subst hk
        simp [getField] at h
        simp [setField, h]
      · simp [getField, hk] at h
        simp [setField, hk, ih h]

/-! ### Lemmas about the store -/

/-- The rows removed by an `INSERT OR REPLACE` for name `m`. -/
def keyFilter (s : Store) (m : String) : Store :=
  s.filter (fun e => !(decide (nameKey e.1 = nameKey m)))

theorem upsertStore_def (s : Store) (n : String) (p : Profile) :
    upsertStore s n p = keyFilter s n ++ [(n, p)] := rfl

theorem lookupStore_append_of_none (l1 l2 : Store) (n : String)
    (h : lookupStore l1 n = none) :
    lookupStore (l1 ++ l2) n = lookupStore l2 n := by
  induction l1 with
  | nil => simp
  | cons e rest ih =>
      obtain ⟨n', p⟩ := e
      by_cases hn : nameKey n' = nameKey n
      · simp [lookupStore, hn] at h
      · simp [lookupStore, hn] at h ⊢
        exact ih h

theorem lookupStore_keyFilter_eq (s : Store) (m n : String)
    (h : nameKey n = nameKey m) : lookupStore (keyFilter s m) n = none := by
  induction s with
  | nil => simp [keyFilter, lookupStore]
  | cons e rest ih =>
      obtain ⟨n', p⟩ := e
      by_cases hn : nameKey n' = nameKey m
      · simpa [keyFilter, hn] using ih
      · have hn' : ¬ nameKey n' = nameKey n := fun hc => hn (hc.trans h)
        simpa [keyFilter, hn, lookupStore, hn'] using ih

theorem lookupStore_append_of_some (l1 l2 : Store) (n : String) (q : Profile)
    (h : lookupStore l1 n = some q) :
    lookupStore (l1 ++ l2) n = some q := by
  induction l1 with
  | nil => simp [lookupStore] at h
  | cons e rest ih =>
      obtain ⟨n', p⟩ := e
      by_cases hn : nameKey n' = nameKey n
      · simp [lookupStore, hn] at h ⊢
        exact h
      · simp [lookupStore, hn] at h ⊢
        exact ih h

theorem lookupStore_keyFilter_ne (s : Store) (m n : String)
    (h : nameKey n ≠ nameKey m) :
    lookupStore (keyFilter s m) n = lookupStore s n := by
  induction s with
  | nil => simp [keyFilter]
  | cons e rest ih =>
      obtain ⟨n', p⟩ := e
      by_cases hn : nameKey n' = nameKey m
      · simpa [keyFilter, hn, lookupStore, Ne.symm h] using ih
      · by_cases hn' : nameKey n' = nameKey n
        · simp [keyFilter, lookupStore, hn', h]
        · simpa [keyFilter, hn, lookupStore, hn'] using ih

theorem lookupStore_upsert_self (s : Store) (n : String) (p : Profile) :
    lookupStore (upsertStore s n p) n = some p := by
  rw [upsertStore_def, lookupStore_append_of_none _ _ _ (lookupStore_keyFilter_eq s n n rfl)]
  simp [lookupStore]

theorem lookupStore_upsert_ne (s : Store) (m n : String) (p : Profile)
    (h : nameKey n ≠ nameKey m) :
    lookupStore (upsertStore s m p) n = lookupStore s n := by
  rw [upsertStore_def]
  rcases hs : lookupStore (keyFilter s m) n with _ | q
  · rw [lookupStore_append_of_none _ _ _ hs, ← lookupStore_keyFilter_ne s m n h, hs]
    simp [lookupStore, Ne.symm h]
  · rw [lookupStore_append_of_some _ _ _ _ hs, ← lookupStore_keyFilter_ne s m n h, hs]

theorem keyFilter_append (l1 l2 : Store) (m : String) :
    keyFilter (l1 ++ l2) m = keyFilter l1 m ++ keyFilter l2 m := by
  simp [keyFilter, List.filter_append]

theorem keyFilter_keyFilter (s : Store) (m m' : String) :
    keyFilter (keyFilter s m') m = keyFilter (keyFilter s m) m' := by
  induction s with
  | nil => simp [keyFilter]
  | cons e rest ih =>
      by_cases hm : nameKey e.1 = nameKey m <;>
        by_cases hm' : nameKey e.1 = nameKey m' <;>
          simp [keyFilter, hm, hm'] at ih ⊢ <;> exact ih

theorem keyFilter_idem (s : Store) (m : String) :
    keyFilter (keyFilter s m) m = keyFilter s m := by
  induction s with
  | nil => simp [keyFilter]
  | cons e rest ih =>
      by_cases hm : nameKey e.1 = nameKey m
      · rw [show keyFilter (e :: rest) m = keyFilter rest m by simp [keyFilter, hm], ih]
      · rw [show keyFilter (e :: rest) m = e :: keyFilter rest m by simp [keyFilter, hm]]
        rw [show keyFilter (e :: keyFilter rest m) m = e :: keyFilter (keyFilter rest m) m by
          simp [keyFilter, hm], ih]

/-! ### Normal forms of one run of `setup_profile` -/

/-- The three critical assignments forced on the `_global` record. -/
def normGlobal (p : Profile) : Profile :=
  setField (setField (setField p "firstRun" (Value.vBool false))
    "defaultLang" (Value.vStr "en_US")) "last_loaded_profile_name" (Value.vStr PROFILE_NAME)

/-- The `_global` record as loaded (or defaulted) at the start of a run. -/
def globalOf (db : Store) (created rid : Int) : Profile :=
  match lookupStore db "_global" with
  | some p => p
  | none => DEFAULT_GLOBAL_PROFILE created rid

/-- The user record as loaded (or defaulted) after the `_global` upsert. -/
def userOf (s : Store) (lastOpt : Int) : Profile :=
  match lookupStore s PROFILE_NAME with
  | some p => p
  | none => DEFAULT_USER_PROFILE lastOpt

/-- The four sync-field assignments of an authenticated run. -/
def withSync (p : Profile) (hkey : Value) (un : String) : Profile :=
  setField (setField (setField (setField p "syncKey" hkey)
    "syncUser" (Value.vStr un)) "autoSync" (Value.vBool true)) "syncMedia" (Value.vBool true)

/-- The pending store right after the `_global` upsert of a run on `db`. -/
def midStore (db : Store) (created rid : Int) : Store :=
  upsertStore db "_global" (normGlobal (globalOf db created rid))

/-- The store committed by a successful run that skipped authentication. -/
def finStoreNoCred (db : Store) (created rid lastOpt : Int) : Store :=
  upsertStore (midStore db created rid) PROFILE_NAME
    (userOf (midStore db created rid) lastOpt)

/-- The store committed by a successful authenticated run with token `hkey`. -/
def finStoreCred (db : Store) (created rid lastOpt : Int) (hkey : Value) (un : String) : Store :=
  upsertStore (midStore db created rid) PROFILE_NAME
    (withSync (userOf (midStore db created rid) lastOpt) hkey un)

theorem setup_profile_unauth (db : Store) (u p : Option String) (resp : HttpResp)
    (created rid lastOpt : Int) (h : (truthy u && truthy p) = false) :
    setup_profile db u p resp created rid lastOpt =
      (⟨finStoreNoCred db created rid lastOpt, finStoreNoCred db created rid lastOpt⟩,
       Except.ok true) := by
  simp [setup_profile, h, DB.connect, DB.upsert, DB.commit,
    finStoreNoCred, midStore, userOf, globalOf, normGlobal]

theorem setup_profile_auth_ok (db : Store) (un pw : String) (resp : HttpResp)
    (created rid lastOpt : Int) (t : Value)
    (hu : un ≠ "") (hp : pw ≠ "")
    (hk : get_hkey_from_ankiweb un pw resp = Except.ok t) :
    setup_profile db (some un) (some pw) resp created rid lastOpt =
      (⟨finStoreCred db created rid lastOpt t un, finStoreCred db created rid lastOpt t un⟩,
       Except.ok true) := by
  simp only [setup_profile, DB.connect, DB.upsert, DB.commit, truthy, Option.getD,
    hu, hp, decide_eq_true_eq]
  simp only [decide_not, hk]
  simp [hu, hp, finStoreCred, midStore, userOf, globalOf, normGlobal, withSync]

theorem setup_profile_auth_err (db : Store) (un pw : String) (resp : HttpResp)
    (created rid lastOpt : Int) (e : FetchError)
    (hu : un ≠ "") (hp : pw ≠ "")
    (hk : get_hkey_from_ankiweb un pw resp = Except.error e) :
    setup_profile db (some un) (some pw) resp created rid lastOpt =
      (⟨db, midStore db created rid⟩, Except.error e) := by
  simp only [setup_profile, DB.connect, DB.upsert, DB.commit, truthy, Option.getD,
    hu, hp, decide_eq_true_eq]
  simp only [decide_not, hk]
  simp [hu, hp, midStore, globalOf, normGlobal]


theorem getField_normGlobal_firstRun (p : Profile) :
    getField (normGlobal p) "firstRun" = some (Value.vBool false) := by
  rw [normGlobal, getField_setField_ne _ _ _ _ (by decide),
    getField_setField_ne _ _ _ _ (by decide), getField_setField_self]

theorem getField_normGlobal_defaultLang (p : Profile) :
    getField (normGlobal p) "defaultLang" = some (Value.vStr "en_US") := by
  rw [normGlobal, getField_setField_ne _ _ _ _ (by decide), getField_setField_self]

theorem getField_normGlobal_lastLoaded (p : Profile) :
    getField (normGlobal p) "last_loaded_profile_name" = some (Value.vStr PROFILE_NAME) := by
  rw [normGlobal, getField_setField_self]

theorem getField_normGlobal_other (p : Profile) (k : String)
    (h1 : k ≠ "firstRun") (h2 : k ≠ "defaultLang")
    (h3 : k ≠ "last_loaded_profile_name") :
    getField (normGlobal p) k = getField p k := by
  rw [normGlobal, getField_setField_ne _ _ _ _ h3, getField_setField_ne _ _ _ _ h2,
    getField_setField_ne _ _ _ _ h1]

theorem normGlobal_idem (p : Profile) : normGlobal (normGlobal p) = normGlobal p := by
  show setField (setField (setField (normGlobal p) "firstRun" (Value.vBool false))
      "defaultLang" (Value.vStr "en_US")) "last_loaded_profile_name" (Value.vStr PROFILE_NAME)
    = normGlobal p
  rw [setField_of_getField_eq _ _ _ (getField_normGlobal_firstRun p),
    setField_of_getField_eq _ _ _ (getField_normGlobal_defaultLang p),
    setField_of_getField_eq _ _ _ (getField_normGlobal_lastLoaded p)]

theorem getField_withSync_syncKey (p : Profile) (t : Value) (un : String) :
    getField (withSync p t un) "syncKey" = some t := by
  rw [withSync, getField_setField_ne _ _ _ _ (by decide),
    getField_setField_ne _ _ _ _ (by decide),
    getField_setField_ne _ _ _ _ (by decide), getField_setField_self]

theorem getField_withSync_syncUser (p : Profile) (t : Value) (un : String) :
    getField (withSync p t un) "syncUser" = some (Value.vStr un) := by
  rw [withSync, getField_setField_ne _ _ _ _ (by decide),
    getField_setField_ne _ _ _ _ (by decide), getField_setField_self]

theorem getField_withSync_autoSync (p : Profile) (t : Value) (un : String) :
    getField (withSync p t un) "autoSync" = some (Value.vBool true) := by
  rw [withSync, getField_setField_ne _ _ _ _ (by decide), getField_setField_self]

theorem getField_withSync_syncMedia (p : Profile) (t : Value) (un : String) :
    getField (withSync p t un) "syncMedia" = some (Value.vBool true) := by
  rw [withSync, getField_setField_self]

theorem lookupStore_finNoCred_global (db : Store) (created rid lastOpt : Int) :
    lookupStore (finStoreNoCred db created rid lastOpt) "_global" =
      some (normGlobal (globalOf db created rid)) := by
  rw [finStoreNoCred, lookupStore_upsert_ne _ _ _ _ (by decide), midStore,
    lookupStore_upsert_self]

theorem lookupStore_finNoCred_user (db : Store) (created rid lastOpt : Int) :
    lookupStore (finStoreNoCred db created rid lastOpt) PROFILE_NAME =
      some (userOf (midStore db created rid) lastOpt) := by
  rw [finStoreNoCred, lookupStore_upsert_self]

theorem lookupStore_finCred_global (db : Store) (created rid lastOpt : Int)
    (t : Value) (un : String) :
    lookupStore (finStoreCred db created rid lastOpt t un) "_global" =
      some (normGlobal (globalOf db created rid)) := by
  rw [finStoreCred, lookupStore_upsert_ne _ _ _ _ (by decide), midStore,
    lookupStore_upsert_self]

theorem lookupStore_finCred_user (db : Store) (created rid lastOpt : Int)
    (t : Value) (un : String) :
    lookupStore (finStoreCred db created rid lastOpt t un) PROFILE_NAME =
      some (withSync (userOf (midStore db created rid) lastOpt) t un) := by
  rw [finStoreCred, lookupStore_upsert_self]

theorem setup_profile_ok_shape (db : Store) (username password : Option String)
    (resp : HttpResp) (created rid lastOpt : Int) (conn : DB) (b : Bool)
    (h : setup_profile db username password resp created rid lastOpt = (conn, Except.ok b)) :
    conn = ⟨finStoreNoCred db created rid lastOpt, finStoreNoCred db created rid lastOpt⟩ ∨
    ∃ un t, username = some un ∧ un ≠ "" ∧
      conn = ⟨finStoreCred db created rid lastOpt t un,
              finStoreCred db created rid lastOpt t un⟩ := by
  by_cases hb : (truthy username && truthy password) = true
  · cases username with
    | none => simp [truthy] at hb
    | some un =>
        cases password with
        | none => simp [truthy] at hb
        | some pw =>
            have hu : un ≠ "" := by intro hc; simp [truthy, hc] at hb
            have hp : pw ≠ "" := by intro hc; simp [truthy, hc] at hb
            cases hk : get_hkey_from_ankiweb un pw resp with
            | error e =>
                rw [setup_profile_auth_err db un pw resp created rid lastOpt e hu hp hk] at h
                have h2 := congrArg Prod.snd h
                simp at h2
            | ok t =>
                rw [setup_profile_auth_ok db un pw resp created rid lastOpt t hu hp hk] at h
                have h1 := congrArg Prod.fst h
                simp only at h1
                exact Or.inr ⟨un, t, rfl, hu, h1.symm⟩
  · have hb' : (truthy username && truthy password) = false := by
      revert hb; cases (truthy username && truthy password) <;> simp
    rw [setup_profile_unauth db username password resp created rid lastOpt hb'] at h
    have h1 := congrArg Prod.fst h
    simp only at h1
    exact Or.inl h1.symm

/-- C1: every successful run of `setup_profile`, whether the `_global` record
was newly created or pre-existing, leaves a `_global` record in the committed
store with `firstRun = False`, `defaultLang = "en_US"` and
`last_loaded_profile_name = "User 1"` (hence the locale and last-active
profile fields are set). -/
theorem C1_global_invariant (db : Store) (username password : Option String)
    (resp : HttpResp) (created rid lastOpt : Int) (conn : DB) (b : Bool)
    (h : setup_profile db username password resp created rid lastOpt = (conn, Except.ok b)) :
    ∃ g, lookupStore conn.committed "_global" = some g ∧
      getField g "firstRun" = some (Value.vBool false) ∧
      getField g "defaultLang" = some (Value.vStr "en_US") ∧
      getField g "last_loaded_profile_name" = some (Value.vStr PROFILE_NAME) := by
  rcases setup_profile_ok_shape db username password resp created rid lastOpt conn b h with
    hc | ⟨un, t, _, _, hc⟩
  · subst hc
    exact ⟨_, lookupStore_finNoCred_global db created rid lastOpt,
      getField_normGlobal_firstRun _, getField_normGlobal_defaultLang _,
      getField_normGlobal_lastLoaded _⟩
  · subst hc
    exact ⟨_, lookupStore_finCred_global db created rid lastOpt t un,
      getField_normGlobal_firstRun _, getField_normGlobal_defaultLang _,
      getField_normGlobal_lastLoaded _⟩

/-- Witness for C1: a successful run on the empty store with no credentials. -/
theorem C1_global_invariant_witness :
    ∃ g, lookupStore (setup_profile [] none none (HttpResp.success []) 5 7 9).1.committed
        "_global" = some g ∧
      getField g "firstRun" = some (Value.vBool false) ∧
      getField g "defaultLang" = some (Value.vStr "en_US") ∧
      getField g "last_loaded_profile_name" = some (Value.vStr PROFILE_NAME) :=
  C1_global_invariant [] none none (HttpResp.success []) 5 7 9 _ _ rfl

/-- C2: when both credentials are supplied (non-empty) and the hostKey
exchange returns token `t`, the committed user profile record has
`syncKey = t`, `syncUser` equal to the supplied username, and `autoSync` and
`syncMedia` both `True`; the run returns `True`. -/
theorem C2_sync_fields_on_success (db : Store) (un pw : String) (resp : HttpResp)
    (t : Value) (created rid lastOpt : Int)
    (hu : un ≠ "") (hp : pw ≠ "")
    (hk : get_hkey_from_ankiweb un pw resp = Except.ok t) :
    (setup_profile db (some un) (some pw) resp created rid lastOpt).2 = Except.ok true ∧
    ∃ u, lookupStore
        (setup_profile db (some un) (some pw) resp created rid lastOpt).1.committed
        PROFILE_NAME = some u ∧
      getField u "syncKey" = some t ∧
      getField u "syncUser" = some (Value.vStr un) ∧
      getField u "autoSync" = some (Value.vBool true) ∧
      getField u "syncMedia" = some (Value.vBool true) := by
  rw [setup_profile_auth_ok db un pw resp created rid lastOpt t hu hp hk]
  exact ⟨rfl, withSync (userOf (midStore db created rid) lastOpt) t un,
    lookupStore_finCred_user db created rid lastOpt t un,
    getField_withSync_syncKey _ _ _, getField_withSync_syncUser _ _ _,
    getField_withSync_autoSync _ _ _, getField_withSync_syncMedia _ _ _⟩

/-- Witness for C2: empty store, credentials `user@example.com` / `secret`,
remote returns `{"key": "abc123"}`. -/
theorem C2_sync_fields_on_success_witness :
    (setup_profile [] (some "user@example.com") (some "secret")
        (HttpResp.success [("key", Value.vStr "abc123")]) 5 7 9).2 = Except.ok true ∧
    ∃ u, lookupStore
        (setup_profile [] (some "user@example.com") (some "secret")
          (HttpResp.success [("key", Value.vStr "abc123")]) 5 7 9).1.committed
        PROFILE_NAME = some u ∧
      getField u "syncKey" = some (Value.vStr "abc123") ∧
      getField u "syncUser" = some (Value.vStr "user@example.com") ∧
      getField u "autoSync" = some (Value.vBool true) ∧
      getField u "syncMedia" = some (Value.vBool true) :=
  C2_sync_fields_on_success [] "user@example.com" "secret"
    (HttpResp.success [("key", Value.vStr "abc123")]) (Value.vStr "abc123") 5 7 9
    (by decide) (by decide) rfl

/-- C3: the credential fetcher raises an invalid-credentials error on HTTP
401/403, a request-failed error on any other HTTP error status, a
connectivity error on a transport failure, and a protocol-mismatch error on a
2xx body lacking the `"key"` field; in each case the result is an error, so
no token is returned. -/
theorem C3_fetch_error_taxonomy :
    (∀ u p code, (code = 401 ∨ code = 403) →
      get_hkey_from_ankiweb u p (HttpResp.httpError code) =
        Except.error FetchError.invalidCredentials) ∧
    (∀ u p code, code ≠ 401 → code ≠ 403 →
      get_hkey_from_ankiweb u p (HttpResp.httpError code) =
        Except.error (FetchError.requestFailed code)) ∧
    (∀ u p reason,
      get_hkey_from_ankiweb u p (HttpResp.urlError reason) =
        Except.error (FetchError.connectFailed reason)) ∧
    (∀ u p body, getField body "key" = none →
      get_hkey_from_ankiweb u p (HttpResp.success body) =
        Except.error (FetchError.unexpectedResponse body)) := by
  refine ⟨?_, ?_, ?_, ?_⟩
  · intro u p code hc
    simp [get_hkey_from_ankiweb, hc]
  · intro u p code h1 h2
    simp [get_hkey_from_ankiweb, h1, h2]
  · intro u p reason
    rfl
  · intro u p body hb
    simp [get_hkey_from_ankiweb, hb]

/-- Witness for C3: one concrete instance of each error case. -/
theorem C3_fetch_error_taxonomy_witness :
    get_hkey_from_ankiweb "u" "p" (HttpResp.httpError 401) =
      Except.error FetchError.invalidCredentials ∧
    get_hkey_from_ankiweb "u" "p" (HttpResp.httpError 500) =
      Except.error (FetchError.requestFailed 500) ∧
    get_hkey_from_ankiweb "u" "p" (HttpResp.urlError "timed out") =
      Except.error (FetchError.connectFailed "timed out") ∧
    get_hkey_from_ankiweb "u" "p" (HttpResp.success []) =
      Except.error (FetchError.unexpectedResponse []) :=
  ⟨C3_fetch_error_taxonomy.1 "u" "p" 401 (Or.inl rfl),
   C3_fetch_error_taxonomy.2.1 "u" "p" 500 (by decide) (by decide),
   C3_fetch_error_taxonomy.2.2.1 "u" "p" "timed out",
   C3_fetch_error_taxonomy.2.2.2 "u" "p" [] rfl⟩

/-- C8: when `setup_profile` raises (propagates an error), nothing is
committed: the committed store equals the initial store, even though the
`_global` upsert was already executed in the transaction. -/
theorem C8_no_commit_on_error (db : Store) (username password : Option String)
    (resp : HttpResp) (created rid lastOpt : Int) (conn : DB) (e : FetchError)
    (h : setup_profile db username password resp created rid lastOpt =
      (conn, Except.error e)) :
    conn.committed = db := by
  by_cases hb : (truthy username && truthy password) = true
  · cases username with
    | none => simp [truthy] at hb
    | some un =>
        cases password with
        | none => simp [truthy] at hb
        | some pw =>
            have hu : un ≠ "" := by intro hc; simp [truthy, hc] at hb
            have hp : pw ≠ "" := by intro hc; simp [truthy, hc] at hb
            cases hk : get_hkey_from_ankiweb un pw resp with
            | ok t =>
                rw [setup_profile_auth_ok db un pw resp created rid lastOpt t hu hp hk] at h
                have h2 := congrArg Prod.snd h
                simp at h2
            | error e' =>
                rw [setup_profile_auth_err db un pw resp created rid lastOpt e' hu hp hk] at h
                have h1 := congrArg Prod.fst h
                simp only at h1
                rw [← h1]
  · have hb' : (truthy username && truthy password) = false := by
      revert hb; cases (truthy username && truthy password) <;> simp
    rw [setup_profile_unauth db username password resp created rid lastOpt hb'] at h
    have h2 := congrArg Prod.snd h
    simp at h2

/-- Witness for C8: credentials supplied, the remote answers 401. -/
theorem C8_no_commit_on_error_witness :
    (setup_profile [(("_global" : String), ([] : Profile))] (some "u") (some "p")
      (HttpResp.httpError 401) 5 7 9).1.committed =
      [(("_global" : String), ([] : Profile))] :=
  C8_no_commit_on_error [(("_global" : String), ([] : Profile))] (some "u") (some "p")
    (HttpResp.httpError 401) 5 7 9 _ FetchError.invalidCredentials rfl

/-- C10: after every successful run, the `_global` record's
`last_loaded_profile_name` equals `PROFILE_NAME = "User 1"`, the exact name
under which the user profile record was upserted, and a record under that
name exists in the committed store. -/
theorem C10_last_loaded_consistent (db : Store) (username password : Option String)
    (resp : HttpResp) (created rid lastOpt : Int) (conn : DB) (b : Bool)
    (h : setup_profile db username password resp created rid lastOpt = (conn, Except.ok b)) :
    ∃ g u, lookupStore conn.committed "_global" = some g ∧
      getField g "last_loaded_profile_name" = some (Value.vStr PROFILE_NAME) ∧
      lookupStore conn.committed PROFILE_NAME = some u := by
  rcases setup_profile_ok_shape db username password resp created rid lastOpt conn b h with
    hc | ⟨un, t, _, _, hc⟩
  · subst hc
    exact ⟨_, _, lookupStore_finNoCred_global db created rid lastOpt,
      getField_normGlobal_lastLoaded _, lookupStore_finNoCred_user db created rid lastOpt⟩
  · subst hc
    exact ⟨_, _, lookupStore_finCred_global db created rid lastOpt t un,
      getField_normGlobal_lastLoaded _, lookupStore_finCred_user db created rid lastOpt t un⟩

/-- Witness for C10: a successful run on the empty store with no credentials. -/
theorem C10_last_loaded_consistent_witness :
    ∃ g u, lookupStore (setup_profile [] none none (HttpResp.success []) 5 7 9).1.committed
        "_global" = some g ∧
      getField g "last_loaded_profile_name" = some (Value.vStr PROFILE_NAME) ∧
      lookupStore (setup_profile [] none none (HttpResp.success []) 5 7 9).1.committed
        PROFILE_NAME = some u :=
  C10_last_loaded_consistent [] none none (HttpResp.success []) 5 7 9 _ _ rfl

theorem globalOf_eq_of_lookup (db : Store) (created rid : Int) (p : Profile)
    (h : lookupStore db "_global" = some p) : globalOf db created rid = p := by
  simp [globalOf, h]

theorem globalOf_eq_default (db : Store) (created rid : Int)
    (h : lookupStore db "_global" = none) :
    globalOf db created rid = DEFAULT_GLOBAL_PROFILE created rid := by
  simp [globalOf, h]

theorem userOf_eq_of_lookup (s : Store) (lastOpt : Int) (p : Profile)
    (h : lookupStore s PROFILE_NAME = some p) : userOf s lastOpt = p := by
  simp [userOf, h]

theorem userOf_eq_default (s : Store) (lastOpt : Int)
    (h : lookupStore s PROFILE_NAME = none) :
    userOf s lastOpt = DEFAULT_USER_PROFILE lastOpt := by
  simp [userOf, h]

theorem keyFilter_single_ne (n m : String) (p : Profile) (h : nameKey n ≠ nameKey m) :
    keyFilter [(n, p)] m = [(n, p)] := by
  simp [keyFilter, h]

theorem keyFilter_single_eq (n m : String) (p : Profile) (h : nameKey n = nameKey m) :
    keyFilter [(n, p)] m = [] := by
  simp [keyFilter, h]

theorem upsert_upsert_restore (s : Store) (a b : String) (g u : Profile)
    (hab : nameKey a ≠ nameKey b) :
    upsertStore (upsertStore (upsertStore (upsertStore s a g) b u) a g) b u =
      upsertStore (upsertStore s a g) b u := by
  have h1 : keyFilter [(a, g)] b = [(a, g)] := keyFilter_single_ne a b g hab
  have h2 : keyFilter [(a, g)] a = [] := keyFilter_single_eq a a g rfl
  have h3 : keyFilter [(b, u)] a = [(b, u)] := keyFilter_single_ne b a u (Ne.symm hab)
  have h4 : keyFilter [(b, u)] b = [] := keyFilter_single_eq b b u rfl
  have hc : keyFilter (keyFilter (keyFilter (keyFilter s a) b) a) b =
      keyFilter (keyFilter s a) b := by
    rw [keyFilter_keyFilter (keyFilter s a) a b, keyFilter_idem s a,
      keyFilter_idem (keyFilter s a) b]
  simp only [upsertStore_def, keyFilter_append, h1, h2, h3, h4, List.append_nil,
    List.nil_append, List.append_assoc, hc]

theorem finStoreNoCred_idem (db : Store) (c r l c2 r2 l2 : Int) :
    finStoreNoCred (finStoreNoCred db c r l) c2 r2 l2 = finStoreNoCred db c r l := by
  have hg : globalOf (finStoreNoCred db c r l) c2 r2 = normGlobal (globalOf db c r) :=
    globalOf_eq_of_lookup _ _ _ _ (lookupStore_finNoCred_global db c r l)
  have hm : midStore (finStoreNoCred db c r l) c2 r2 =
      upsertStore (finStoreNoCred db c r l) "_global" (normGlobal (globalOf db c r)) := by
    rw [midStore, hg, normGlobal_idem]
  have hu2 : userOf (midStore (finStoreNoCred db c r l) c2 r2) l2 =
      userOf (midStore db c r) l := by
    rw [hm]
    refine userOf_eq_of_lookup _ _ _ ?_
    
    rw [lookupStore_upsert_ne _ _ _ _ (by decide)]
    exact lookupStore_finNoCred_user db c r l
  show upsertStore (midStore (finStoreNoCred db c r l) c2 r2) PROFILE_NAME
      (userOf (midStore (finStoreNoCred db c r l) c2 r2) l2) = finStoreNoCred db c r l
  rw [hu2, hm]
  show upsertStore (upsertStore (upsertStore (upsertStore db "_global"
      (normGlobal (globalOf db c r))) PROFILE_NAME (userOf (midStore db c r) l))
      "_global" (normGlobal (globalOf db c r))) PROFILE_NAME (userOf (midStore db c r) l) =
    upsertStore (upsertStore db "_global" (normGlobal (globalOf db c r)))
      PROFILE_NAME (userOf (midStore db c r) l)
  exact upsert_upsert_restore db "_global" PROFILE_NAME _ _ (by decide)

theorem main_run_noCred (envU envP : Option String) (db : Store) (resp : HttpResp)
    (c r l : Int)
    (h : pyStrip (envU.getD "") = "" ∨ pyStrip (envP.getD "") = "") :
    main_run envU envP db resp c r l = (finStoreNoCred db c r l, 0, []) := by
  simp only [main_run, if_pos h]
  rw [setup_profile_unauth db none none resp c r l rfl]

theorem main_run_withCred (envU envP : Option String) (db : Store) (resp : HttpResp)
    (c r l : Int)
    (hu : pyStrip (envU.getD "") ≠ "") (hp : pyStrip (envP.getD "") ≠ "") :
    main_run envU envP db resp c r l =
      (match setup_profile db (some (pyStrip (envU.getD "")))
          (some (pyStrip (envP.getD ""))) resp c r l with
        | (conn, Except.ok _) => (conn.committed, 0, [])
        | (conn, Except.error e) =>
            (conn.committed, 1, ["Error setting up Anki profile: " ++ e.message])) := by
  have hnot : ¬(pyStrip (envU.getD "") = "" ∨ pyStrip (envP.getD "") = "") := by
    rintro (hc | hc)
    · exact hu hc
    · exact hp hc
  simp only [main_run, if_neg hnot]

/-- C4: when a `_global` record pre-exists, every field other than
`firstRun`, `defaultLang` and `last_loaded_profile_name` is preserved
verbatim in the record rewritten by a successful run; only those three are
overwritten. -/
theorem C4_global_frame (db : Store) (username password : Option String)
    (resp : HttpResp) (created rid lastOpt : Int) (g0 : Profile)
    (h0 : lookupStore db "_global" = some g0) (conn : DB) (b : Bool)
    (h : setup_profile db username password resp created rid lastOpt = (conn, Except.ok b))
    (k : String) (h1 : k ≠ "firstRun") (h2 : k ≠ "defaultLang")
    (h3 : k ≠ "last_loaded_profile_name") :
    ∃ g, lookupStore conn.committed "_global" = some g ∧
      getField g k = getField g0 k := by
  have hg : globalOf db created rid = g0 := globalOf_eq_of_lookup _ _ _ _ h0
  rcases setup_profile_ok_shape db username password resp created rid lastOpt conn b h with
    hc | ⟨un, t, _, _, hc⟩
  · subst hc
    refine ⟨_, lookupStore_finNoCred_global db created rid lastOpt, ?_⟩
    rw [getField_normGlobal_other _ _ h1 h2 h3, hg]
  · subst hc
    refine ⟨_, lookupStore_finCred_global db created rid lastOpt t un, ?_⟩
    rw [getField_normGlobal_other _ _ h1 h2 h3, hg]

/-- Witness for C4: a store holding a `_global` record with a `created`
timestamp, which survives the run unchanged. -/
theorem C4_global_frame_witness :
    ∃ g, lookupStore (setup_profile [("_global", [("created", Value.vInt 42)])] none none
        (HttpResp.success []) 5 7 9).1.committed "_global" = some g ∧
      getField g "created" = getField [("created", Value.vInt 42)] "created" :=
  C4_global_frame [("_global", [("created", Value.vInt 42)])] none none
    (HttpResp.success []) 5 7 9 [("created", Value.vInt 42)] rfl _ _ rfl
    "created" (by decide) (by decide) (by decide)

/-- C5: for unauthenticated runs (either env var empty after stripping, so no
credentials are used), running the tool a second time on the store produced
by the first run yields the same committed store, whatever the second run's
remote behaviour, clock and randomness. -/
theorem C5_unauth_idempotent (envU envP : Option String) (db : Store)
    (resp resp2 : HttpResp) (c r l c2 r2 l2 : Int)
    (h : pyStrip (envU.getD "") = "" ∨ pyStrip (envP.getD "") = "") :
    (main_run envU envP ((main_run envU envP db resp c r l).1) resp2 c2 r2 l2).1 =
      (main_run envU envP db resp c r l).1 := by
  rw [main_run_noCred envU envP db resp c r l h]
  rw [main_run_noCred envU envP _ resp2 c2 r2 l2 h]
  exact finStoreNoCred_idem db c r l c2 r2 l2

/-- Witness for C5: two runs on the empty store with env vars unset. -/
theorem C5_unauth_idempotent_witness :
    (main_run none none ((main_run none none [] (HttpResp.success []) 1 2 3).1)
        (HttpResp.httpError 500) 4 5 6).1 =
      (main_run none none [] (HttpResp.success []) 1 2 3).1 :=
  C5_unauth_idempotent none none [] (HttpResp.success []) (HttpResp.httpError 500)
    1 2 3 4 5 6 (Or.inl rfl)

/-- C6: with credentials supplied and the remote answering HTTP 401, the
process exits with status 1, stderr carries the invalid-credentials message,
and the committed store is unchanged (in particular the user record's sync
fields are untouched). -/
theorem C6_http401_rolls_back (envU envP : Option String) (db : Store)
    (c r l : Int)
    (hu : pyStrip (envU.getD "") ≠ "") (hp : pyStrip (envP.getD "") ≠ "") :
    main_run envU envP db (HttpResp.httpError 401) c r l =
      (db, 1, ["Error setting up Anki profile: Invalid AnkiWeb username or password"]) := by
  rw [main_run_withCred envU envP db (HttpResp.httpError 401) c r l hu hp]
  rw [setup_profile_auth_err db _ _ _ c r l FetchError.invalidCredentials hu hp
    (by simp [get_hkey_from_ankiweb])]
  rfl

/-- Witness for C6: env vars `u`/`p`, a store with one user row, remote 401. -/
theorem C6_http401_rolls_back_witness :
    main_run (some "u") (some "p") [(PROFILE_NAME, [("syncKey", Value.vNone)])]
        (HttpResp.httpError 401) 5 7 9 =
      ([(PROFILE_NAME, [("syncKey", Value.vNone)])], 1,
       ["Error setting up Anki profile: Invalid AnkiWeb username or password"]) :=
  C6_http401_rolls_back (some "u") (some "p") [(PROFILE_NAME, [("syncKey", Value.vNone)])]
    5 7 9 (by decide) (by decide)

/-- C7 counterexample: with both env vars absent but a pre-existing user
record whose `syncKey` is already set, the run still exits 0 and the final
user record keeps its sync token — so the claim that every credential-less
run ends with a user record with no sync token set is false. -/
theorem C7_skip_auth_counterexample :
    lookupStore (main_run none none
        [(PROFILE_NAME, [("syncKey", Value.vStr "oldkey")])]
        (HttpResp.success []) 0 0 0).1 PROFILE_NAME =
      some [("syncKey", Value.vStr "oldkey")] ∧
    (main_run none none [(PROFILE_NAME, [("syncKey", Value.vStr "oldkey")])]
        (HttpResp.success []) 0 0 0).2.1 = 0 := by
  constructor
  · rfl
  · rfl

/-- C7 (amended): for every run in which either environment variable is
absent or empty after stripping, authentication is skipped entirely (the
outcome does not depend on the remote behaviour), the exit status is 0, the
final `_global` record has `firstRun = False`, and — when no user record
pre-existed — the final user record has `syncKey = None`. -/
theorem C7_skip_auth_amended (envU envP : Option String) (db : Store)
    (resp resp2 : HttpResp) (c r l : Int)
    (h : pyStrip (envU.getD "") = "" ∨ pyStrip (envP.getD "") = "") :
    main_run envU envP db resp c r l = main_run envU envP db resp2 c r l ∧
    (main_run envU envP db resp c r l).2.1 = 0 ∧
    (∃ g, lookupStore (main_run envU envP db resp c r l).1 "_global" = some g ∧
      getField g "firstRun" = some (Value.vBool false)) ∧
    (lookupStore db PROFILE_NAME = none →
      ∃ u, lookupStore (main_run envU envP db resp c r l).1 PROFILE_NAME = some u ∧
        getField u "syncKey" = some Value.vNone) := by
  rw [main_run_noCred envU envP db resp c r l h, main_run_noCred envU envP db resp2 c r l h]
  refine ⟨rfl, rfl,
    ⟨_, lookupStore_finNoCred_global db c r l, getField_normGlobal_firstRun _⟩, ?_⟩
  intro hnone
  refine ⟨userOf (midStore db c r) l, lookupStore_finNoCred_user db c r l, ?_⟩
  have hmid : lookupStore (midStore db c r) PROFILE_NAME = none := by
    rw [midStore, lookupStore_upsert_ne _ _ _ _ (by decide)]
    exact hnone
  rw [userOf_eq_default _ _ hmid]
  simp [DEFAULT_USER_PROFILE, getField]

/-- Witness for the amended C7: a run on the empty store with env vars
unset. -/
theorem C7_skip_auth_amended_witness :
    main_run none none [] (HttpResp.success []) 1 2 3 =
      main_run none none [] (HttpResp.httpError 500) 1 2 3 ∧
    (main_run none none [] (HttpResp.success []) 1 2 3).2.1 = 0 ∧
    (∃ g, lookupStore (main_run none none [] (HttpResp.success []) 1 2 3).1 "_global" =
        some g ∧ getField g "firstRun" = some (Value.vBool false)) ∧
    (lookupStore [] PROFILE_NAME = none →
      ∃ u, lookupStore (main_run none none [] (HttpResp.success []) 1 2 3).1 PROFILE_NAME =
        some u ∧ getField u "syncKey" = some Value.vNone) :=
  C7_skip_auth_amended none none [] (HttpResp.success []) (HttpResp.httpError 500) 1 2 3
    (Or.inl rfl)

theorem pyStrip_eq_empty_of_all_space (s : String) (h : s.data.all isPySpace = true) :
    pyStrip s = "" := by
  have hd : s.data.dropWhile isPySpace = [] := by
    rw [List.dropWhile_eq_nil_iff]
    intro x hx
    exact (List.all_eq_true.mp h) x hx
  rw [pyStrip, hd]
  rfl

/-- C9: a whitespace-only value in either environment variable behaves
exactly as if that variable were absent: the values are stripped before the
non-emptiness check, so authentication is skipped with both credentials as
`None`. -/
theorem C9_whitespace_as_absent (s : String) (hs : s.data.all isPySpace = true)
    (envU envP : Option String) (db : Store) (resp : HttpResp) (c r l : Int) :
    main_run (some s) envP db resp c r l = main_run none envP db resp c r l ∧
    main_run envU (some s) db resp c r l = main_run envU none db resp c r l := by
  have h0 : pyStrip s = pyStrip "" := by
    rw [pyStrip_eq_empty_of_all_space s hs]
    rfl
  constructor
  · simp only [main_run, Option.getD, h0]
  · simp only [main_run, Option.getD, h0]

/-- Witness for C9: env value a single space. -/
theorem C9_whitespace_as_absent_witness :
    main_run (some " ") (some "p") [] (HttpResp.success []) 1 2 3 =
      main_run none (some "p") [] (HttpResp.success []) 1 2 3 ∧
    main_run (some "u") (some " ") [] (HttpResp.success []) 1 2 3 =
      main_run (some "u") none [] (HttpResp.success []) 1 2 3 :=
  ⟨(C9_whitespace_as_absent " " (by decide) (some "u") (some "p") []
      (HttpResp.success []) 1 2 3).1,
   (C9_whitespace_as_absent " " (by decide) (some "u") (some "p") []
      (HttpResp.success []) 1 2 3).2⟩
